import Mathlib

/-!
Verification development for the connectivity layer of the Ariadne repository
(`src/graia/ariadne/connection/connection.py`).

The embedding is a shallow translation of the Python source into Lean:

* JSON-like dynamic values (Python dicts/strings/ints/lists as they flow through
  the frame handlers) become the inductive type `J`; Python truthiness becomes
  `truthy`. Objects and arrays are encoded with the mutually inductive
  `JFields` / `JList` so equality is decidable.
* `ConnectionStatus` (connection.py lines 57-93) becomes a structure with the
  three fields `session_key`, `alive`, `connected`; its `update` method takes an
  explicit option for every argument, mirroring the `...` sentinel for
  `session_key` and the `None` default for `connected` / `alive`.
* The async handlers and call methods become pure functions from an explicit
  state to (new state, list of emitted actions, outcome); awaited suspension
  points (`wait_for_update`, fetch responses, HTTP responses) are supplied by
  explicit oracle arguments. Where a Python statement raises, the function
  returns the state reached at the raise together with the exception.
* `connection/util.py` and `exception.py` are not part of the provided sources;
  the few symbols used from them (`CallMethod`, `validate_response`) are
  modelled from the spec, with doc comments marking the modelling.
-/

mutual
/-- JSON-like dynamic value, as the Python handlers see decoded frames. -/
inductive J where
  | null : J
  | str (s : String) : J
  | num (n : Int) : J
  | obj (fs : JFields) : J
  | arr (xs : JList) : J
deriving DecidableEq
/-- Field list of a JSON object (a Python dict in insertion order). -/
inductive JFields where
  | nil : JFields
  | cons (k : String) (v : J) (rest : JFields) : JFields
deriving DecidableEq
/-- Element list of a JSON array. -/
inductive JList where
  | nil : JList
  | cons (v : J) (rest : JList) : JList
deriving DecidableEq
end

/-- `dict.get`-style lookup on an object field list (first matching key). -/
def jget (fs : JFields) (k : String) : Option J :=
  match fs with
  | JFields.nil => none
  | JFields.cons k2 v rest => if k2 = k then some v else jget rest k

/-- Whether a JSON array contains a given value (`x in list` in Python). -/
def JList.hasElem (xs : JList) (v : J) : Bool :=
  match xs with
  | JList.nil => false
  | JList.cons x rest => x = v || rest.hasElem v

/-- Map a JSON array to a Lean list through a function. -/
def JList.mapToList {α : Type} (f : J → α) (xs : JList) : List α :=
  match xs with
  | JList.nil => []
  | JList.cons x rest => f x :: rest.mapToList f

/-- Python truthiness of a `J` value (`bool(x)`). -/
def truthy : J → Bool
  | J.null => false
  | J.str s => s != ""
  | J.num n => n != 0
  | J.obj fs => fs != JFields.nil
  | J.arr xs => xs != JList.nil

/-- Python truthiness of a nullable value (`None` is falsy). -/
def jOptTruthy : Option J → Bool
  | some v => truthy v
  | none => false

/-- `ConnectionStatus` (connection.py lines 57-62): `session_key` is nullable,
`alive` and `connected` are booleans. A stored session key is kept as a dynamic
value, matching the untyped assignment in `update`. -/
structure ConnectionStatus where
  session_key : Option J
  alive : Bool
  connected : Bool
deriving DecidableEq

/-- The state `__init__` establishes: no session key, not alive, not connected. -/
def ConnectionStatus.init : ConnectionStatus :=
  { session_key := none, alive := false, connected := false }

/-- `ConnectionStatus.update` (connection.py lines 64-78).
`session_key = none` models the `...` sentinel (argument omitted); supplying it
assigns the field and sets `connected = (session_key is not None)`. `connected`
and `alive` arguments equal to `none` model their `None` defaults (omitted);
an explicitly supplied `connected` is applied after the `session_key` branch,
so it overrides the `connected` derived from `session_key`. -/
def ConnectionStatus.update (st : ConnectionStatus) (session_key : Option (Option J))
    (connected : Option Bool) (alive : Option Bool) : ConnectionStatus :=
  let st1 := match session_key with
    | some v => { st with session_key := v, connected := v.isSome }
    | none => st
  let st2 := match connected with
    | some c => { st1 with connected := c }
    | none => st1
  match alive with
  | some a => { st2 with alive := a }
  | none => st2

/-- `ConnectionStatus.available` (connection.py lines 80-82):
`bool(self.connected and self.session_key and self.alive)` — note the middle
conjunct is Python truthiness of the key, not a null test. -/
def ConnectionStatus.available (st : ConnectionStatus) : Bool :=
  st.connected && jOptTruthy st.session_key && st.alive

/-- One argument triple for a call to `ConnectionStatus.update`. -/
structure UpdArgs where
  sk : Option (Option J)
  conn : Option Bool
  liv : Option Bool
deriving DecidableEq

/-- Apply a sequence of `update` calls in order. -/
def applyUpdates (st : ConnectionStatus) (us : List UpdArgs) : ConnectionStatus :=
  us.foldl (fun s u => s.update u.sk u.conn u.liv) st

/-- Modelled from the spec: `CallMethod` comes from `connection/util.py`, which
is not among the provided sources. The members are the ones `connection.py`
uses: plain `GET`/`POST` (HTTP client), `RESTGET` ("read"), `RESTPOST`
("write") and `MULTIPART` (multi-part upload); spec section 4.2 and 4.3. -/
inductive CallMethod where
  | GET : CallMethod
  | POST : CallMethod
  | RESTGET : CallMethod
  | RESTPOST : CallMethod
  | MULTIPART : CallMethod
deriving DecidableEq

/-- Modelled from the spec: `validate_response` comes from `connection/util.py`,
which is not among the provided sources. Spec section 4.2 step 1: "If it
carries a nonzero error code, raise a protocol error derived from the
code/message instead of treating it as data"; section 6 gives the inbound frame
shape with keys `code` / `message` / `data`; section 7: a ProtocolError carries
the code and the message. Values without a nonzero integer `code` field are
returned unchanged. The error is returned as the pair (code, message). -/
def validate_response (d : J) : Except (Int × Option J) J :=
  match d with
  | J.obj fs =>
    match jget fs "code" with
    | some (J.num c) => if c = 0 then Except.ok d else Except.error (c, jget fs "message")
    | _ => Except.ok d
  | _ => Except.ok d

/-- Python `key in value` for the membership tests of the frame handler:
key lookup on a dict, substring test on a string, element test on a list,
`TypeError` (modelled as `Except.error`) on `None` and numbers. -/
def hasKeyPy (d : J) (k : String) : Except Unit Bool :=
  match d with
  | J.obj fs => Except.ok (jget fs k).isSome
  | J.str s => Except.ok ((s.splitOn k).length ≥ 2)
  | J.arr xs => Except.ok (xs.hasElem (J.str k))
  | _ => Except.error ()

/-- Python `value[key]` subscription: present dict key yields the value; a
missing key (`KeyError`) or a non-dict value (`TypeError`) is an error. -/
def getItemPy (d : J) (k : String) : Except Unit J :=
  match d with
  | J.obj fs =>
    match jget fs k with
    | some v => Except.ok v
    | none => Except.error ()
  | _ => Except.error ()

/-- Exceptions that can escape the websocket frame handler: the failed
`assert isinstance(raw, dict)`, a `TypeError` from `in`/subscription on a
non-dict payload, the protocol error raised by `validate_response`, and the
`InvalidStateError` from `set_result` on an already-resolved future. -/
inductive WErr where
  | assertFail : WErr
  | typeError : WErr
  | protocolErr (code : Int) (message : Option J) : WErr
  | futureState : WErr
deriving DecidableEq

/-- Observable side effects of the websocket mixin besides its own state:
log lines, the concurrent fan-out of one event to all callbacks
(`asyncio.gather` over `event_callbacks`), the `wait_for_available`
suspension, and a frame sent on the channel. -/
inductive WAct where
  | logSuccess : WAct
  | logWarning (d : J) : WAct
  | dispatch (e : J) : WAct
  | waitAvailable : WAct
  | send (content : J) : WAct
deriving DecidableEq

/-- State owned by a websocket connection: its `ConnectionStatus`, the
pending-call map `futures` (key is the `syncId` value; `none` marks a pending
future, `some d` one resolved with result `d`), and whether `ws_io` is set. -/
structure ConnState where
  status : ConnectionStatus
  futures : List (J × Option J)
  wsIo : Bool
deriving DecidableEq

/-- Lookup in the pending-call map (`sync_id in self.futures` / indexing). -/
def lookupFut (fs : List (J × Option J)) (k : J) : Option (Option J) :=
  match fs with
  | [] => none
  | (k2, v) :: rest => if k2 = k then some v else lookupFut rest k

/-- `set_result` on the future stored at a key: the entry's value is replaced,
the entry itself stays in the map (the handler never deletes it). -/
def setFut (fs : List (J × Option J)) (k : J) (v : Option J) : List (J × Option J) :=
  match fs with
  | [] => []
  | (k2, v2) :: rest =>
    (if k2 = k then (k2, v) else (k2, v2)) :: setFut rest k v

/-- Dict assignment `self.futures[sync_id] = fut`: overwrite or append. -/
def putFut (fs : List (J × Option J)) (k : J) (v : Option J) : List (J × Option J) :=
  if (lookupFut fs k).isSome then setFut fs k v else fs ++ [(k, v)]

namespace WebsocketConnectionMixin

/-- Classification steps 2-5 of the `WebsocketReceivedEvent` handler
(connection.py lines 146-157), after `data` passed `validate_response`:
session-establishment branch, pending-call resolution, event fan-out,
unknown-data warning. -/
def wsDispatch (st : ConnState) (syncId : J) (data : J) :
    ConnState × List WAct × Option WErr :=
  match hasKeyPy data "session" with
  | Except.error _ => (st, [], some WErr.typeError)
  | Except.ok true =>
    match getItemPy data "session" with
    | Except.error _ => (st, [], some WErr.typeError)
    | Except.ok sv =>
      ({ st with status := st.status.update (some (some sv)) none none },
       [WAct.logSuccess], none)
  | Except.ok false =>
    match lookupFut st.futures syncId with
    | some none =>
      ({ st with futures := setFut st.futures syncId (some data) }, [], none)
    | some (some _) => (st, [], some WErr.futureState)
    | none =>
      match hasKeyPy data "type" with
      | Except.error _ => (st, [], some WErr.typeError)
      | Except.ok true =>
        ({ st with status := st.status.update none none (some true) },
         [WAct.dispatch data], none)
      | Except.ok false => (st, [WAct.logWarning data], none)

/-- Handler part after the top-level error check: extract `syncId` (default
`"#"`) and `data` (default `None`), validate `data`, then classify
(connection.py lines 143-157). -/
def wsReceivedRest (st : ConnState) (fs : JFields) :
    ConnState × List WAct × Option WErr :=
  match validate_response ((jget fs "data").getD J.null) with
  | Except.error (c, m) => (st, [], some (WErr.protocolErr c m))
  | Except.ok data => wsDispatch st ((jget fs "syncId").getD (J.str "#")) data

/-- The `WebsocketReceivedEvent` handler (connection.py lines 136-157): assert
the decoded frame is a dict; if it has a `code` key, run `validate_response`
on the whole frame (raising on a nonzero code) before anything else; then
continue with `wsReceivedRest`. A raise leaves the state as it was. -/
def received (st : ConnState) (raw : J) : ConnState × List WAct × Option WErr :=
  match raw with
  | J.obj fs =>
    if (jget fs "code").isSome then
      match validate_response (J.obj fs) with
      | Except.error (c, m) => (st, [], some (WErr.protocolErr c m))
      | Except.ok _ => wsReceivedRest st fs
    else wsReceivedRest st fs
  | _ => (st, [], some WErr.assertFail)

/-- The `WebsocketCloseEvent` handler (connection.py lines 159-162):
`del self.ws_io` then `self.status.update(session_key=None, alive=False)`.
The pending-call map is not touched. -/
def onClose (st : ConnState) : ConnState × List WAct :=
  ({ st with wsIo := false,
             status := st.status.update (some none) none (some false) }, [])

/-- Outcome of `WebsocketConnectionMixin.call`: either the
`NotImplementedError` raise, or the caller left awaiting its future. -/
inductive WCallOut where
  | raised (msg : String) : WCallOut
  | awaiting (token : String) : WCallOut
deriving DecidableEq

/-- Message of the `NotImplementedError` raised for a multipart call
(connection.py line 174). -/
def multipartMsg : String := "Please hook HttpClientConnection for multipart operation"

/-- `WebsocketConnectionMixin.call` (connection.py lines 164-178). The fresh
`secrets.token_urlsafe(12)` token is an explicit argument; `hasFallback`
records whether `self.fallback` is set (the method never consults it). For
`MULTIPART` the raise happens before the future is registered and before
anything is sent; otherwise the future is registered, then the call waits for
`available` and sends the envelope, leaving the caller awaiting the future. -/
def call (st : ConnState) (hasFallback : Bool) (method : CallMethod)
    (command : String) (params : Option J) (token : String) :
    ConnState × List WAct × WCallOut :=
  let p := match params with
    | some v => if truthy v then v else J.obj JFields.nil
    | none => J.obj JFields.nil
  let base := JFields.cons "syncId" (J.str token)
    (JFields.cons "command" (J.str command) (JFields.cons "content" p JFields.nil))
  let withSub := fun (sub : String) =>
    JFields.cons "syncId" (J.str token)
      (JFields.cons "command" (J.str command)
        (JFields.cons "content" p (JFields.cons "subCommand" (J.str sub) JFields.nil)))
  match method with
  | CallMethod.MULTIPART => (st, [], WCallOut.raised multipartMsg)
  | CallMethod.RESTGET =>
    ({ st with futures := putFut st.futures (J.str token) none },
     [WAct.waitAvailable, WAct.send (J.obj (withSub "get"))], WCallOut.awaiting token)
  | CallMethod.RESTPOST =>
    ({ st with futures := putFut st.futures (J.str token) none },
     [WAct.waitAvailable, WAct.send (J.obj (withSub "update"))], WCallOut.awaiting token)
  | _ =>
    ({ st with futures := putFut st.futures (J.str token) none },
     [WAct.waitAvailable, WAct.send (J.obj base)], WCallOut.awaiting token)

end WebsocketConnectionMixin

namespace ConnectionMixin

/-- Result of the base `ConnectionMixin.call`: delegation to the fallback
connection's `call`, or the `NotImplementedError` raise. -/
inductive MixinCallRes where
  | delegated (method : CallMethod) (command : String) : MixinCallRes
  | raisedNotImpl (msg : String) : MixinCallRes
deriving DecidableEq

/-- Message of the `NotImplementedError` raised by `ConnectionMixin.call`
(connection.py lines 118-120): an f-string interpolating `self` (here the
connection's repr string) and `command!r`. -/
def notImplMsg (connRepr command : String) : String :=
  "Connection " ++ connRepr ++ " can\x27t perform \x27" ++ command ++
    "\x27, consider configuring a HttpClientConnection?"

/-- `ConnectionMixin.call` (connection.py lines 115-120): delegate to the
fallback connection when one is attached, otherwise raise. -/
def call (hasFallback : Bool) (connRepr : String) (method : CallMethod)
    (command : String) : MixinCallRes :=
  if hasFallback then MixinCallRes.delegated method command
  else MixinCallRes.raisedNotImpl (notImplMsg connRepr command)

end ConnectionMixin

/-- Exceptions arising from an HTTP request round-trip (`request` deserializes
the body and runs `validate_response`): the dedicated `InvalidSession` error
(`graia.ariadne.exception`, caught by name in `call`), any other protocol
error, and other Python exceptions (KeyError / AssertionError and the like). -/
inductive ApiErr where
  | invalidSession : ApiErr
  | protocolErr (code : Int) (message : Option J) : ApiErr
  | pyErr : ApiErr
deriving DecidableEq

/-- Observable actions of the HTTP client connection: awaited sleep, the
bounded `fetchMessage` GET (carrying the session key it sends and the batch
size), the `verify` and `bind` POSTs of the handshake, the three request
shapes of `call`, status-`alive` updates, the fan-out of one decoded event to
all callbacks, and the two log statements. -/
inductive HAct where
  | sleep : HAct
  | fetchReq (sessionKey : Option J) (count : Int) : HAct
  | postVerify : HAct
  | postBind (session : J) : HAct
  | getReq (command : String) (params : J) : HAct
  | postReq (command : String) (params : J) : HAct
  | postForm (command : String) (params : J) : HAct
  | updAlive (b : Bool) : HAct
  | dispatch (e : J) : HAct
  | logDebug : HAct
  | logException : HAct
deriving DecidableEq

namespace HttpClientConnection

/-- `HttpClientConnection.http_auth` (connection.py lines 295-307). The two
awaited responses (already deserialized and validated by `request`) are the
oracle arguments `verifyResp` and `bindResp`; an `Except.error` models the
exception `request` raised. On success the session key taken from
`verifyResp["session"]` is stored via `status.update(session_key=...)`. -/
def http_auth (st : ConnectionStatus) (verifyResp bindResp : Except ApiErr J) :
    ConnectionStatus × List HAct × Option ApiErr :=
  match verifyResp with
  | Except.error e => (st, [HAct.postVerify], some e)
  | Except.ok d =>
    match getItemPy d "session" with
    | Except.error _ => (st, [HAct.postVerify], some ApiErr.pyErr)
    | Except.ok sv =>
      match bindResp with
      | Except.error e => (st, [HAct.postVerify, HAct.postBind sv], some e)
      | Except.ok _ =>
        (st.update (some (some sv)) none none,
         [HAct.postVerify, HAct.postBind sv], none)

/-- Outcome of `HttpClientConnection.call`: still suspended in the
`wait_for_update` loop, an exception re-raised to the caller, or a value
returned. -/
inductive HOut where
  | suspended : HOut
  | raised (e : ApiErr) : HOut
  | returned (d : J) : HOut
deriving DecidableEq

/-- Body of `HttpClientConnection.call` after the `connected` wait loop
(connection.py lines 315-326): lazily re-run the handshake when the stored
session key is falsy, then dispatch the request by method kind; an
`InvalidSession` from the request clears the session key
(`status.update(session_key=None)`) and re-raises; other exceptions
propagate without touching the status. -/
def callBody (st : ConnectionStatus) (method : CallMethod) (command : String)
    (params : J) (verifyResp bindResp reqResp : Except ApiErr J) :
    ConnectionStatus × List HAct × HOut :=
  match (if jOptTruthy st.session_key then (st, ([] : List HAct), (none : Option ApiErr))
         else http_auth st verifyResp bindResp) with
  | (st1, acts1, some e) => (st1, acts1, HOut.raised e)
  | (st1, acts1, none) =>
    let act := match method with
      | CallMethod.GET => HAct.getReq command params
      | CallMethod.RESTGET => HAct.getReq command params
      | CallMethod.POST => HAct.postReq command params
      | CallMethod.RESTPOST => HAct.postReq command params
      | CallMethod.MULTIPART => HAct.postForm command params
    match reqResp with
    | Except.ok d => (st1, acts1 ++ [act], HOut.returned d)
    | Except.error ApiErr.invalidSession =>
      (st1.update (some none) none none, acts1 ++ [act],
       HOut.raised ApiErr.invalidSession)
    | Except.error e => (st1, acts1 ++ [act], HOut.raised e)

/-- `HttpClientConnection.call` (connection.py lines 309-326). The leading
`while not self.status.connected: await self.status.wait_for_update()` loop is
modelled by the oracle list `wakes`: the status values observed after each
successive wake-up (each wake logs the debug line). An exhausted list leaves
the call suspended; once a connected status is observed the body runs on it.
The `command.replace("_", "/")` rewrite is applied to the command. -/
def call (st : ConnectionStatus) (wakes : List ConnectionStatus)
    (method : CallMethod) (command : String) (params : J)
    (verifyResp bindResp reqResp : Except ApiErr J) :
    ConnectionStatus × List HAct × HOut :=
  if st.connected then
    callBody st method (command.replace "_" "/") params verifyResp bindResp reqResp
  else
    match wakes with
    | [] => (st, [], HOut.suspended)
    | w :: ws =>
      match call w ws method command params verifyResp bindResp reqResp with
      | (s2, acts, o) => (s2, HAct.logDebug :: acts, o)

deriving instance DecidableEq for Except

/-- One iteration oracle for the `mainline` polling loop: `env` is the status
as possibly rewritten by concurrent `update` calls during the awaited sleep
(`none` means unchanged), `fetchResp` the awaited `fetchMessage` response. -/
structure MStep where
  env : Option ConnectionStatus
  fetchResp : Except ApiErr J
deriving DecidableEq

/-- Outcome of the `mainline` run: normal loop exit, an exception escaping the
loop, the oracle list exhausted with the loop still running, or a handshake
failure (caught, logged, loop never entered). -/
inductive MOut where
  | finished : MOut
  | raised (e : ApiErr) : MOut
  | outOfSteps : MOut
  | authFailed : MOut
deriving DecidableEq

/-- The `while self.status.connected` loop of `mainline` plus its trailing
`self.status.update(alive=False)` (connection.py lines 335-347). Each pass:
sleep, issue the bounded fetch (`count` fixed at 10, session key from the
current status), propagate a fetch exception (skipping the trailing update),
assert the result is a list, mark `alive=True`, fan out every decoded event,
and loop. When `connected` is false the loop exits and `alive` is cleared. -/
def mainLoop (st : ConnectionStatus) (steps : List MStep) :
    ConnectionStatus × List HAct × MOut :=
  match steps with
  | [] =>
    if st.connected then (st, [], MOut.outOfSteps)
    else (st.update none none (some false), [HAct.updAlive false], MOut.finished)
  | s :: rest =>
    if st.connected then
      let stA := s.env.getD st
      match s.fetchResp with
      | Except.error e =>
        (stA, [HAct.sleep, HAct.fetchReq stA.session_key 10], MOut.raised e)
      | Except.ok (J.arr evs) =>
        match mainLoop (stA.update none none (some true)) rest with
        | (st2, acts2, o) =>
          (st2, [HAct.sleep, HAct.fetchReq stA.session_key 10, HAct.updAlive true]
                  ++ evs.mapToList HAct.dispatch ++ acts2, o)
      | Except.ok _ =>
        (stA, [HAct.sleep, HAct.fetchReq stA.session_key 10], MOut.raised ApiErr.pyErr)
    else (st.update none none (some false), [HAct.updAlive false], MOut.finished)

/-- `HttpClientConnection.mainline` (connection.py lines 328-347): run
`http_auth`; any exception from it is caught, the session key is cleared via
`status.update(session_key=None)` and the exception logged, and the coroutine
returns without retrying; otherwise the polling loop runs. -/
def mainline (st : ConnectionStatus) (verifyResp bindResp : Except ApiErr J)
    (steps : List MStep) : ConnectionStatus × List HAct × MOut :=
  match http_auth st verifyResp bindResp with
  | (st1, acts, some _) =>
    (st1.update (some none) none none, acts ++ [HAct.logException], MOut.authFailed)
  | (st1, acts, none) =>
    match mainLoop st1 steps with
    | (st2, acts2, o) => (st2, acts ++ acts2, o)

end HttpClientConnection

/-- `available` as a formula over the three fields, for any status value. -/
theorem available_eq_formula (st : ConnectionStatus) :
    st.available = (st.connected && st.alive && jOptTruthy st.session_key) := by
  cases st with
  | mk sk alv con =>
    simp only [ConnectionStatus.available]
    cases con <;> cases alv <;> cases h : jOptTruthy sk <;> simp

/-- Claim C1, as stated, is false: `available` tests Python truthiness of the
session key, not nullability, so after `update(session_key="")` followed by
`update(alive=True)` the formula (connected AND alive AND session_key not
null) is true while `available` is false. -/
theorem claim_C1_counterexample :
    (applyUpdates ConnectionStatus.init
        [⟨some (some (J.str "")), none, none⟩, ⟨none, none, some true⟩]).available = false
    ∧ (applyUpdates ConnectionStatus.init
        [⟨some (some (J.str "")), none, none⟩, ⟨none, none, some true⟩]).connected = true
    ∧ (applyUpdates ConnectionStatus.init
        [⟨some (some (J.str "")), none, none⟩, ⟨none, none, some true⟩]).alive = true
    ∧ (applyUpdates ConnectionStatus.init
        [⟨some (some (J.str "")), none, none⟩, ⟨none, none, some true⟩]).session_key
        ≠ none := by
  refine ⟨rfl, rfl, rfl, ?_⟩
  decide

/-- Claim C1 amended: for every sequence of `ConnectionStatus.update` calls,
immediately after each call `available` equals the conjunction of `connected`,
`alive`, and the session key being present AND truthy (a non-empty value), not
merely non-null. -/
theorem claim_C1_amended (us : List UpdArgs) :
    (applyUpdates ConnectionStatus.init us).available =
      ((applyUpdates ConnectionStatus.init us).connected
        && (applyUpdates ConnectionStatus.init us).alive
        && jOptTruthy (applyUpdates ConnectionStatus.init us).session_key) :=
  available_eq_formula _

/-- Claim C2, as stated, is false: the close handler calls
`update(session_key=None, alive=False)`, and supplying `session_key=None` sets
`connected = (None is not None) = False`, so a connection that was `connected`
before the closure is not `connected` afterwards. -/
theorem claim_C2_counterexample :
    (WebsocketConnectionMixin.onClose
        ⟨⟨some (J.str "K"), true, true⟩, [], true⟩).1.status.connected = false
    ∧ (⟨⟨some (J.str "K"), true, true⟩, [], true⟩ : ConnState).status.connected
        = true :=
  ⟨rfl, rfl⟩

/-- Claim C2 amended: the close handler clears the session key and sets
`alive` to false, and — because supplying `session_key=None` to `update` also
assigns `connected = (session_key is not None)` — it sets `connected` to
false as well; the pending-call map is untouched and `ws_io` is deleted. -/
theorem claim_C2_amended (st : ConnState) :
    (WebsocketConnectionMixin.onClose st).1.status.session_key = none
    ∧ (WebsocketConnectionMixin.onClose st).1.status.alive = false
    ∧ (WebsocketConnectionMixin.onClose st).1.status.connected = false
    ∧ (WebsocketConnectionMixin.onClose st).1.futures = st.futures
    ∧ (WebsocketConnectionMixin.onClose st).1.wsIo = false :=
  ⟨rfl, rfl, rfl, rfl, rfl⟩

/-- Claim C8, as stated, is false in the case where both `session_key` and an
explicit `connected` are supplied: the explicit `connected` argument is
applied after the `session_key` branch and overrides it, so
`update(session_key="K", connected=False)` leaves `connected = False` even
though the supplied key is not null. -/
theorem claim_C8_counterexample :
    (ConnectionStatus.init.update (some (some (J.str "K"))) (some false) none).connected
      = false
    ∧ (some (J.str "K") : Option J).isSome = true :=
  ⟨rfl, rfl⟩

/-- Claim C8 amended: every omitted argument leaves its field unchanged;
supplying `session_key` assigns it and sets `connected = (session_key is not
null)` — unless an explicit `connected` argument is also supplied, in which
case that value overrides; an explicit `alive` is always assigned. -/
theorem claim_C8_amended (st : ConnectionStatus) (sk : Option (Option J))
    (c a : Option Bool) :
    (sk = none → (st.update sk c a).session_key = st.session_key)
    ∧ (a = none → (st.update sk c a).alive = st.alive)
    ∧ (sk = none → c = none → (st.update sk c a).connected = st.connected)
    ∧ (∀ v, sk = some v → (st.update sk c a).session_key = v)
    ∧ (∀ v, sk = some v → c = none → (st.update sk c a).connected = v.isSome)
    ∧ (∀ b, c = some b → (st.update sk c a).connected = b)
    ∧ (∀ b, a = some b → (st.update sk c a).alive = b) := by
  cases sk <;> cases c <;> cases a <;> simp [ConnectionStatus.update]

/-- Witness for C8 amended: supplying `session_key="K"` with `connected`
omitted sets `connected` to `(some "K").isSome = true`. -/
theorem claim_C8_witness :
    (ConnectionStatus.init.update (some (some (J.str "K"))) none none).connected
      = (some (J.str "K") : Option J).isSome :=
  (claim_C8_amended ConnectionStatus.init (some (some (J.str "K"))) none none).2.2.2.2.1
    (some (J.str "K")) rfl rfl

/-- Claim C10: a `MULTIPART` call on the websocket mixin raises its
`NotImplementedError` before the future is registered and before anything is
awaited or sent: the state (pending map, status, channel flag) is returned
exactly as it was and the action trace is empty — for any value of the
fallback flag, since `WebsocketConnectionMixin.call` never consults it. -/
theorem claim_C10 (st : ConnState) (hasFb : Bool) (command : String)
    (params : Option J) (token : String) :
    WebsocketConnectionMixin.call st hasFb CallMethod.MULTIPART command params token
      = (st, [], WebsocketConnectionMixin.WCallOut.raised
          WebsocketConnectionMixin.multipartMsg) :=
  rfl

/-- Claim C6, as stated, is false: the websocket variants lack native support
for `MULTIPART`, yet their `call` raises `NotImplementedError` without
delegating even when a fallback connection is attached (the fallback flag is
true here and the result is the raise, with nothing sent and no state
change). -/
theorem claim_C6_counterexample :
    WebsocketConnectionMixin.call ⟨ConnectionStatus.init, [], true⟩ true
        CallMethod.MULTIPART "file_upload" none "tok"
      = (⟨ConnectionStatus.init, [], true⟩, [],
          WebsocketConnectionMixin.WCallOut.raised
            WebsocketConnectionMixin.multipartMsg) :=
  rfl

/-- Claim C6 amended: the base `ConnectionMixin.call` (the variant with no
native call support, e.g. the passive HTTP server connection) delegates to
the fallback when one is attached and otherwise raises immediately with a
message naming the requested command and the connection — never a silent
no-op; the websocket variants' `MULTIPART` call, however, raises its own
unsupported-operation error regardless of any attached fallback. -/
theorem claim_C6_amended :
    (∀ r m c, ConnectionMixin.call true r m c
        = ConnectionMixin.MixinCallRes.delegated m c)
    ∧ (∀ r m c, ConnectionMixin.call false r m c
        = ConnectionMixin.MixinCallRes.raisedNotImpl (ConnectionMixin.notImplMsg r c))
    ∧ (∀ r c, ∃ x y, ConnectionMixin.notImplMsg r c = x ++ c ++ y)
    ∧ (∀ r c, ∃ x y, ConnectionMixin.notImplMsg r c = x ++ r ++ y)
    ∧ (∀ st fb cmd p tok,
        WebsocketConnectionMixin.call st fb CallMethod.MULTIPART cmd p tok
          = (st, [], WebsocketConnectionMixin.WCallOut.raised
              WebsocketConnectionMixin.multipartMsg)) := by
  refine ⟨fun r m c => rfl, fun r m c => rfl, ?_, ?_, fun st fb cmd p tok => rfl⟩
  · intro r c
    exact ⟨"Connection " ++ r ++ " can\x27t perform \x27",
      "\x27, consider configuring a HttpClientConnection?", rfl⟩
  · intro r c
    refine ⟨"Connection ",
      " can\x27t perform \x27" ++ c ++ "\x27, consider configuring a HttpClientConnection?",
      ?_⟩
    simp only [ConnectionMixin.notImplMsg, String.append_assoc]

/-- `setFut` only rewrites values: whether a key is present is unchanged. -/
theorem lookupFut_setFut_isSome (fs : List (J × Option J)) (k : J) (v : Option J)
    (t : J) : (lookupFut (setFut fs k v) t).isSome = (lookupFut fs t).isSome := by
  induction fs with
  | nil => rfl
  | cons p rest ih =>
    cases p with
    | mk k2 v2 =>
      simp only [setFut]
      by_cases h : k2 = k
      · rw [if_pos h]
        simp only [lookupFut]
        by_cases h2 : k2 = t
        · rw [if_pos h2, if_pos h2]
          rfl
        · rw [if_neg h2, if_neg h2]
          exact ih
      · rw [if_neg h]
        simp only [lookupFut]
        by_cases h2 : k2 = t
        · rw [if_pos h2, if_pos h2]
        · rw [if_neg h2, if_neg h2]
          exact ih

/-- The classification step never removes a pending-map key. -/
theorem wsDispatch_keeps_future_keys (st : ConnState) (sy d t : J)
    (h : (lookupFut st.futures t).isSome = true) :
    (lookupFut (WebsocketConnectionMixin.wsDispatch st sy d).1.futures t).isSome
      = true := by
  unfold WebsocketConnectionMixin.wsDispatch
  split
  · exact h
  · split
    · exact h
    · exact h
  · split
    · simpa [lookupFut_setFut_isSome] using h
    · exact h
    · split
      · exact h
      · exact h
      · exact h

/-- The whole `WebsocketReceivedEvent` handler never removes a pending-map
key: every branch either leaves `futures` alone or stores a result in place. -/
theorem received_keeps_future_keys (st : ConnState) (raw : J) (t : J)
    (h : (lookupFut st.futures t).isSome = true) :
    (lookupFut (WebsocketConnectionMixin.received st raw).1.futures t).isSome
      = true := by
  have hrest : ∀ fs, (lookupFut
      (WebsocketConnectionMixin.wsReceivedRest st fs).1.futures t).isSome = true := by
    intro fs
    unfold WebsocketConnectionMixin.wsReceivedRest
    split
    · exact h
    · exact wsDispatch_keeps_future_keys st _ _ t h
  unfold WebsocketConnectionMixin.received
  split
  · split
    · split
      · exact h
      · exact hrest _
    · exact hrest _
  · exact h

/-- Claim C7, as stated, is false: resolving a pending call stores the result
in the future but never deletes the map entry (the source map is a
`WeakValueDictionary` relying on garbage collection), and the close handler
does not sweep the map either — after resolving token `"t"` the entry is
still present, and it is still present after the channel closes. -/
theorem claim_C7_counterexample :
    (WebsocketConnectionMixin.received ⟨ConnectionStatus.init, [(J.str "t", none)], true⟩
        (J.obj (JFields.cons "syncId" (J.str "t")
          (JFields.cons "data"
            (J.obj (JFields.cons "x" (J.num 1) JFields.nil)) JFields.nil)))).1.futures
      = [(J.str "t", some (J.obj (JFields.cons "x" (J.num 1) JFields.nil)))]
    ∧ (WebsocketConnectionMixin.onClose
        (WebsocketConnectionMixin.received ⟨ConnectionStatus.init, [(J.str "t", none)], true⟩
          (J.obj (JFields.cons "syncId" (J.str "t")
            (JFields.cons "data"
              (J.obj (JFields.cons "x" (J.num 1) JFields.nil)) JFields.nil)))).1).1.futures
      = [(J.str "t", some (J.obj (JFields.cons "x" (J.num 1) JFields.nil)))] := by
  exact ⟨rfl, rfl⟩

/-- Claim C7 amended: a pending-call entry is never removed by the frame
handler (resolution stores the result in place, keeping the key) and the
close handler leaves the map untouched; in the source the map holds weak
references, so reclamation of resolved or abandoned entries relies on
garbage collection, not on deterministic removal. -/
theorem claim_C7_amended :
    (∀ (st : ConnState) (raw t : J), (lookupFut st.futures t).isSome = true →
      (lookupFut (WebsocketConnectionMixin.received st raw).1.futures t).isSome = true)
    ∧ (∀ st : ConnState, (WebsocketConnectionMixin.onClose st).1.futures = st.futures) :=
  ⟨received_keeps_future_keys, fun _ => rfl⟩

/-- Witness for C7 amended: the entry for token `"t"` is still present after
the handler resolves it. -/
theorem claim_C7_witness :
    (lookupFut (WebsocketConnectionMixin.received
        ⟨ConnectionStatus.init, [(J.str "t", none)], true⟩
        (J.obj (JFields.cons "syncId" (J.str "t")
          (JFields.cons "data"
            (J.obj (JFields.cons "x" (J.num 1) JFields.nil)) JFields.nil)))).1.futures
      (J.str "t")).isSome = true :=
  claim_C7_amended.1 ⟨ConnectionStatus.init, [(J.str "t", none)], true⟩
    (J.obj (JFields.cons "syncId" (J.str "t")
      (JFields.cons "data"
        (J.obj (JFields.cons "x" (J.num 1) JFields.nil)) JFields.nil)))
    (J.str "t") rfl

/-- Claim C3, as stated, is false: on a frame with nonzero `code` whose token
matches a pending call, the handler raises the protocol error at the top of
its body, before ever consulting the pending map — the awaiting caller
receives nothing and the entry for `"t"` is still pending (value `none`) in
the unchanged map. -/
theorem claim_C3_counterexample :
    (WebsocketConnectionMixin.received ⟨ConnectionStatus.init, [(J.str "t", none)], true⟩
        (J.obj (JFields.cons "code" (J.num 1)
          (JFields.cons "syncId" (J.str "t") JFields.nil)))).2.2
      = some (WErr.protocolErr 1 none)
    ∧ (WebsocketConnectionMixin.received ⟨ConnectionStatus.init, [(J.str "t", none)], true⟩
        (J.obj (JFields.cons "code" (J.num 1)
          (JFields.cons "syncId" (J.str "t") JFields.nil)))).1.futures
      = [(J.str "t", none)] := by
  exact ⟨rfl, rfl⟩

/-- Claim C3 amended: on a frame with a nonzero error code the handler raises
the ProtocolError built from the code and `message` field inside the receive
task itself; the matching pending call is neither failed nor resolved and its
entry is not removed — the whole state is left exactly as it was. -/
theorem claim_C3_amended (st : ConnState) (fs : JFields) (c : Int)
    (hcode : jget fs "code" = some (J.num c)) (hc : c ≠ 0) :
    WebsocketConnectionMixin.received st (J.obj fs)
      = (st, [], some (WErr.protocolErr c (jget fs "message"))) := by
  simp [WebsocketConnectionMixin.received, validate_response, hcode, hc]

/-- Witness for C3 amended, at the counterexample's concrete frame. -/
theorem claim_C3_witness :
    WebsocketConnectionMixin.received ⟨ConnectionStatus.init, [(J.str "t", none)], true⟩
        (J.obj (JFields.cons "code" (J.num 1)
          (JFields.cons "syncId" (J.str "t") JFields.nil)))
      = (⟨ConnectionStatus.init, [(J.str "t", none)], true⟩, [],
          some (WErr.protocolErr 1 none)) :=
  claim_C3_amended ⟨ConnectionStatus.init, [(J.str "t", none)], true⟩
    (JFields.cons "code" (J.num 1) (JFields.cons "syncId" (J.str "t") JFields.nil))
    1 rfl (by decide)

/-- Claim C5: a frame whose (validated) data carries a `session` field makes
the handler store the session key — `session_key` becomes the carried value
and `connected` becomes true — and return at once: the pending map is
untouched, nothing is dispatched to any callback, and no error is raised. -/
theorem claim_C5 (st : ConnState) (fs ds : JFields) (sv : J)
    (hcode : jget fs "code" = none)
    (hdata : jget fs "data" = some (J.obj ds))
    (hdcode : jget ds "code" = none)
    (hsess : jget ds "session" = some sv) :
    (WebsocketConnectionMixin.received st (J.obj fs)).1.status.session_key = some sv
    ∧ (WebsocketConnectionMixin.received st (J.obj fs)).1.status.connected = true
    ∧ (WebsocketConnectionMixin.received st (J.obj fs)).1.futures = st.futures
    ∧ (∀ e, WAct.dispatch e ∉ (WebsocketConnectionMixin.received st (J.obj fs)).2.1)
    ∧ (WebsocketConnectionMixin.received st (J.obj fs)).2.2 = none := by
  have h1 : WebsocketConnectionMixin.received st (J.obj fs)
      = ({ st with status := st.status.update (some (some sv)) none none },
         [WAct.logSuccess], none) := by
    simp [WebsocketConnectionMixin.received, WebsocketConnectionMixin.wsReceivedRest,
      WebsocketConnectionMixin.wsDispatch, hcode, hdata, hdcode, hsess,
      validate_response, hasKeyPy, getItemPy]
  rw [h1]
  refine ⟨rfl, rfl, rfl, ?_, rfl⟩
  intro e
  simp

/-- Witness for C5: the concrete handshake-ack frame with `data.session = "S"`
on a fresh connection state. -/
theorem claim_C5_witness :
    (WebsocketConnectionMixin.received ⟨ConnectionStatus.init, [], true⟩
        (J.obj (JFields.cons "syncId" (J.str "")
          (JFields.cons "data"
            (J.obj (JFields.cons "session" (J.str "S") JFields.nil))
            JFields.nil)))).1.status.session_key = some (J.str "S")
    ∧ (WebsocketConnectionMixin.received ⟨ConnectionStatus.init, [], true⟩
        (J.obj (JFields.cons "syncId" (J.str "")
          (JFields.cons "data"
            (J.obj (JFields.cons "session" (J.str "S") JFields.nil))
            JFields.nil)))).1.status.connected = true := by
  have h := claim_C5 ⟨ConnectionStatus.init, [], true⟩
    (JFields.cons "syncId" (J.str "")
      (JFields.cons "data"
        (J.obj (JFields.cons "session" (J.str "S") JFields.nil)) JFields.nil))
    (JFields.cons "session" (J.str "S") JFields.nil)
    (J.str "S") rfl rfl rfl rfl
  exact ⟨h.1, h.2.1⟩

/-- The handshake's first awaited action is always the `verify` POST. -/
theorem http_auth_head (st : ConnectionStatus) (vr br : Except ApiErr J) :
    (HttpClientConnection.http_auth st vr br).2.1.head? = some HAct.postVerify := by
  unfold HttpClientConnection.http_auth
  split
  · rfl
  · split
    · rfl
    · split
      · rfl
      · rfl

/-- The handshake only performs the `verify` and `bind` POSTs. -/
theorem http_auth_acts (st : ConnectionStatus) (vr br : Except ApiErr J) :
    ∀ a ∈ (HttpClientConnection.http_auth st vr br).2.1,
      a = HAct.postVerify ∨ ∃ v, a = HAct.postBind v := by
  unfold HttpClientConnection.http_auth
  split
  · simp
  · split
    · simp
    · split
      · simp
      · simp

/-- When the stored session key is falsy, the call body's first action is the
handshake's `verify` POST: the re-handshake happens before the request. -/
theorem callBody_auth_head (st : ConnectionStatus) (m : CallMethod) (c : String)
    (p : J) (vr br rr : Except ApiErr J)
    (h2 : jOptTruthy st.session_key = false) :
    (HttpClientConnection.callBody st m c p vr br rr).2.1.head?
      = some HAct.postVerify := by
  unfold HttpClientConnection.callBody
  rcases h3 : HttpClientConnection.http_auth st vr br with ⟨st1, acts1, oe⟩
  have hh : acts1.head? = some HAct.postVerify := by
    have := http_auth_head st vr br
    rw [h3] at this
    exact this
  simp only [h2, Bool.false_eq_true, if_false, h3]
  cases oe with
  | some e => exact hh
  | none =>
    cases rr with
    | ok d =>
      cases acts1 with
      | nil => exact absurd hh (by simp)
      | cons a rest => simpa using hh
    | error e =>
      cases e <;>
        cases acts1 with
        | nil => exact absurd hh (by simp)
        | cons a rest => simpa using hh

/-- The wait loop of `HttpClientConnection.call`: while no observed status is
`connected` the call stays suspended and performs nothing but debug logs. -/
theorem call_stays_suspended (wakes : List ConnectionStatus)
    (st : ConnectionStatus) (m : CallMethod) (c : String) (p : J)
    (vr br rr : Except ApiErr J) (h0 : st.connected = false)
    (hall : ∀ w ∈ wakes, w.connected = false) :
    (HttpClientConnection.call st wakes m c p vr br rr).2.2
        = HttpClientConnection.HOut.suspended
      ∧ ∀ a ∈ (HttpClientConnection.call st wakes m c p vr br rr).2.1,
          a = HAct.logDebug := by
  induction wakes generalizing st with
  | nil =>
    unfold HttpClientConnection.call
    simp [h0]
  | cons w ws ih =>
    have hw : w.connected = false := hall w (by simp)
    have hws : ∀ x ∈ ws, x.connected = false := fun x hx => hall x (by simp [hx])
    have ihw := ih w hw hws
    unfold HttpClientConnection.call
    simp only [h0, Bool.false_eq_true, if_false]
    rcases h4 : HttpClientConnection.call w ws m c p vr br rr with ⟨s2, acts, o⟩
    rw [h4] at ihw
    refine ⟨ihw.1, ?_⟩
    intro a ha
    simp only [List.mem_cons] at ha
    rcases ha with ha | ha
    · exact ha
    · exact ihw.2 a ha

/-- Claim C4: (1) a call performs nothing but the wait loop while `connected`
is false; (2) a call proceeding with a falsy session key re-runs the
handshake before dispatching its request; (3) an invalid-session rejection
clears the session key (`update(session_key=None)`) and re-raises; (4) hence
the next call, proceeding with the session key now `None`, re-handshakes
before sending its request. -/
theorem claim_C4 :
    (∀ (st : ConnectionStatus) (wakes : List ConnectionStatus) (m : CallMethod)
        (c : String) (p : J) (vr br rr : Except ApiErr J),
      st.connected = false → (∀ w ∈ wakes, w.connected = false) →
      (HttpClientConnection.call st wakes m c p vr br rr).2.2
          = HttpClientConnection.HOut.suspended
        ∧ ∀ a ∈ (HttpClientConnection.call st wakes m c p vr br rr).2.1,
            a = HAct.logDebug)
    ∧ (∀ (st : ConnectionStatus) (m : CallMethod) (c : String) (p : J)
        (vr br rr : Except ApiErr J),
      st.connected = true → jOptTruthy st.session_key = false →
      (HttpClientConnection.call st [] m c p vr br rr).2.1.head?
        = some HAct.postVerify)
    ∧ (∀ (st : ConnectionStatus) (m : CallMethod) (c : String) (p : J)
        (vr br : Except ApiErr J),
      st.connected = true → jOptTruthy st.session_key = true →
      (HttpClientConnection.call st [] m c p vr br
          (Except.error ApiErr.invalidSession)).1.session_key = none
        ∧ (HttpClientConnection.call st [] m c p vr br
            (Except.error ApiErr.invalidSession)).2.2
          = HttpClientConnection.HOut.raised ApiErr.invalidSession)
    ∧ (∀ (st : ConnectionStatus) (m : CallMethod) (c : String) (p : J)
        (vr br rr : Except ApiErr J),
      st.connected = true → st.session_key = none →
      (HttpClientConnection.call st [] m c p vr br rr).2.1.head?
        = some HAct.postVerify) := by
  refine ⟨?_, ?_, ?_, ?_⟩
  · intro st wakes m c p vr br rr h0 hall
    exact call_stays_suspended wakes st m c p vr br rr h0 hall
  · intro st m c p vr br rr h1 h2
    unfold HttpClientConnection.call
    simp only [h1, if_true]
    exact callBody_auth_head st m _ p vr br rr h2
  · intro st m c p vr br h1 h2
    unfold HttpClientConnection.call
    simp only [h1, if_true]
    unfold HttpClientConnection.callBody
    simp only [h2, if_true]
    cases m <;> exact ⟨rfl, trivial⟩
  · intro st m c p vr br rr h1 h2
    unfold HttpClientConnection.call
    simp only [h1, if_true]
    refine callBody_auth_head st m _ p vr br rr ?_
    rw [h2]
    rfl

/-- Witness for C4: concrete instances of the four conjuncts. A disconnected
status with no wake-ups stays suspended; after an invalid-session rejection
on a connected status with key `"K1"` the key is `None` and the error is
re-raised; the next call, connected again with no key, starts with the
`verify` POST of the re-handshake. -/
theorem claim_C4_witness :
    (HttpClientConnection.call ConnectionStatus.init [] CallMethod.GET
        "fetchMessage" (J.obj JFields.nil) (Except.ok J.null) (Except.ok J.null)
        (Except.ok J.null)).2.2 = HttpClientConnection.HOut.suspended
    ∧ (HttpClientConnection.call ⟨some (J.str "K1"), true, true⟩ [] CallMethod.GET
        "messageFromId" (J.obj JFields.nil) (Except.ok J.null) (Except.ok J.null)
        (Except.error ApiErr.invalidSession)).1.session_key = none
    ∧ (HttpClientConnection.call ⟨some (J.str "K1"), true, true⟩ [] CallMethod.GET
        "messageFromId" (J.obj JFields.nil) (Except.ok J.null) (Except.ok J.null)
        (Except.error ApiErr.invalidSession)).2.2
      = HttpClientConnection.HOut.raised ApiErr.invalidSession
    ∧ (HttpClientConnection.call ⟨none, true, true⟩ [] CallMethod.GET
        "messageFromId" (J.obj JFields.nil)
        (Except.ok (J.obj (JFields.cons "session" (J.str "K2") JFields.nil)))
        (Except.ok J.null) (Except.ok J.null)).2.1.head? = some HAct.postVerify := by
  refine ⟨(claim_C4.1 ConnectionStatus.init [] CallMethod.GET "fetchMessage"
      (J.obj JFields.nil) (Except.ok J.null) (Except.ok J.null) (Except.ok J.null)
      rfl (by simp)).1, ?_, ?_, ?_⟩
  · exact (claim_C4.2.2.1 ⟨some (J.str "K1"), true, true⟩ CallMethod.GET
      "messageFromId" (J.obj JFields.nil) (Except.ok J.null) (Except.ok J.null)
      rfl (by decide)).1
  · exact (claim_C4.2.2.1 ⟨some (J.str "K1"), true, true⟩ CallMethod.GET
      "messageFromId" (J.obj JFields.nil) (Except.ok J.null) (Except.ok J.null)
      rfl (by decide)).2
  · exact claim_C4.2.2.2 ⟨none, true, true⟩ CallMethod.GET "messageFromId"
      (J.obj JFields.nil)
      (Except.ok (J.obj (JFields.cons "session" (J.str "K2") JFields.nil)))
      (Except.ok J.null) (Except.ok J.null) rfl rfl

/-- Event fan-out actions are never fetch requests. -/
theorem fetch_not_in_dispatch : ∀ (evs : JList) (k : Option J) (c : Int),
    HAct.fetchReq k c ∉ JList.mapToList HAct.dispatch evs
  | JList.nil, _, _ => by simp [JList.mapToList]
  | JList.cons v rest, k, c => by
    simp only [JList.mapToList, List.mem_cons]
    rintro (h | h)
    · cases h
    · exact fetch_not_in_dispatch rest k c h

/-- When the polling loop exits because `connected` is false, it clears
`alive` and finishes. -/
theorem mainLoop_exit (st : ConnectionStatus) (steps : List HttpClientConnection.MStep)
    (h : st.connected = false) :
    HttpClientConnection.mainLoop st steps
      = (st.update none none (some false), [HAct.updAlive false],
         HttpClientConnection.MOut.finished) := by
  cases steps with
  | nil =>
    simp only [HttpClientConnection.mainLoop]
    rw [if_neg (by simp [h])]
  | cons s rest =>
    simp only [HttpClientConnection.mainLoop]
    rw [if_neg (by simp [h])]

/-- One successful iteration of the polling loop, unfolded: sleep, the
bounded fetch, `alive=True`, the fan-out of every fetched event, then the
rest of the loop from the (possibly environment-rewritten) status. -/
theorem mainLoop_iter (st : ConnectionStatus) (env : Option ConnectionStatus)
    (evs : JList) (rest : List HttpClientConnection.MStep)
    (hc : st.connected = true) :
    HttpClientConnection.mainLoop st (⟨env, Except.ok (J.arr evs)⟩ :: rest)
      = ((HttpClientConnection.mainLoop
            ((env.getD st).update none none (some true)) rest).1,
         [HAct.sleep, HAct.fetchReq (env.getD st).session_key 10, HAct.updAlive true]
           ++ evs.mapToList HAct.dispatch
           ++ (HttpClientConnection.mainLoop
                ((env.getD st).update none none (some true)) rest).2.1,
         (HttpClientConnection.mainLoop
            ((env.getD st).update none none (some true)) rest).2.2) := by
  rcases hml : HttpClientConnection.mainLoop
      ((env.getD st).update none none (some true)) rest with ⟨st2, acts2, o⟩
  unfold HttpClientConnection.mainLoop
  rw [if_pos hc]
  simp only [hml]

/-- A normally-finished polling loop always ends with `alive = false`. -/
theorem mainLoop_finished_alive (steps : List HttpClientConnection.MStep) :
    ∀ st : ConnectionStatus,
      (HttpClientConnection.mainLoop st steps).2.2 = HttpClientConnection.MOut.finished →
      (HttpClientConnection.mainLoop st steps).1.alive = false := by
  induction steps with
  | nil =>
    intro st h
    by_cases hc : st.connected = true
    · unfold HttpClientConnection.mainLoop at h
      rw [if_pos hc] at h
      exact absurd h (by simp)
    · rw [mainLoop_exit st [] (by simpa using hc)]
      rfl
  | cons s rest ih =>
    intro st h
    obtain ⟨env, fr⟩ := s
    by_cases hc : st.connected = true
    · cases fr with
      | error e =>
        have heq : HttpClientConnection.mainLoop st (⟨env, Except.error e⟩ :: rest)
            = (env.getD st, [HAct.sleep, HAct.fetchReq (env.getD st).session_key 10],
               HttpClientConnection.MOut.raised e) := by
          unfold HttpClientConnection.mainLoop
          rw [if_pos hc]
        rw [heq] at h
        exact absurd h (by simp)
      | ok d =>
        cases d with
        | arr evs =>
          rw [mainLoop_iter st env evs rest hc] at h ⊢
          exact ih ((env.getD st).update none none (some true)) h
        | null =>
          have heq : HttpClientConnection.mainLoop st (⟨env, Except.ok J.null⟩ :: rest)
              = (env.getD st, [HAct.sleep, HAct.fetchReq (env.getD st).session_key 10],
                 HttpClientConnection.MOut.raised ApiErr.pyErr) := by
            unfold HttpClientConnection.mainLoop
            rw [if_pos hc]
          rw [heq] at h
          exact absurd h (by simp)
        | str s2 =>
          have heq : HttpClientConnection.mainLoop st (⟨env, Except.ok (J.str s2)⟩ :: rest)
              = (env.getD st, [HAct.sleep, HAct.fetchReq (env.getD st).session_key 10],
                 HttpClientConnection.MOut.raised ApiErr.pyErr) := by
            unfold HttpClientConnection.mainLoop
            rw [if_pos hc]
          rw [heq] at h
          exact absurd h (by simp)
        | num n =>
          have heq : HttpClientConnection.mainLoop st (⟨env, Except.ok (J.num n)⟩ :: rest)
              = (env.getD st, [HAct.sleep, HAct.fetchReq (env.getD st).session_key 10],
                 HttpClientConnection.MOut.raised ApiErr.pyErr) := by
            unfold HttpClientConnection.mainLoop
            rw [if_pos hc]
          rw [heq] at h
          exact absurd h (by simp)
        | obj fs =>
          have heq : HttpClientConnection.mainLoop st (⟨env, Except.ok (J.obj fs)⟩ :: rest)
              = (env.getD st, [HAct.sleep, HAct.fetchReq (env.getD st).session_key 10],
                 HttpClientConnection.MOut.raised ApiErr.pyErr) := by
            unfold HttpClientConnection.mainLoop
            rw [if_pos hc]
          rw [heq] at h
          exact absurd h (by simp)
    · rw [mainLoop_exit st (⟨env, fr⟩ :: rest) (by simpa using hc)]
      rfl

/-- Every fetch the polling loop issues is bounded by batch size 10. -/
theorem mainLoop_fetch_ten (steps : List HttpClientConnection.MStep) :
    ∀ (st : ConnectionStatus) (k : Option J) (c : Int),
      HAct.fetchReq k c ∈ (HttpClientConnection.mainLoop st steps).2.1 → c = 10 := by
  induction steps with
  | nil =>
    intro st k c h
    by_cases hc : st.connected = true
    · unfold HttpClientConnection.mainLoop at h
      rw [if_pos hc] at h
      simp at h
    · rw [mainLoop_exit st [] (by simpa using hc)] at h
      simp at h
  | cons s rest ih =>
    intro st k c h
    obtain ⟨env, fr⟩ := s
    by_cases hc : st.connected = true
    · cases fr with
      | error e =>
        have heq : HttpClientConnection.mainLoop st (⟨env, Except.error e⟩ :: rest)
            = (env.getD st, [HAct.sleep, HAct.fetchReq (env.getD st).session_key 10],
               HttpClientConnection.MOut.raised e) := by
          unfold HttpClientConnection.mainLoop
          rw [if_pos hc]
        rw [heq] at h
        simp at h
        exact h.2
      | ok d =>
        cases d with
        | arr evs =>
          rw [mainLoop_iter st env evs rest hc] at h
          rw [List.append_assoc] at h
          rcases List.mem_append.mp h with h1 | h1
          · rcases List.mem_cons.mp h1 with h2 | h1b
            · cases h2
            · rcases List.mem_cons.mp h1b with h2 | h1c
              · injection h2 with hk hcv
              · rcases List.mem_cons.mp h1c with h2 | h1d
                · cases h2
                · exact absurd h1d (List.not_mem_nil _)
          · rcases List.mem_append.mp h1 with h2 | h2
            · exact absurd h2 (fetch_not_in_dispatch evs k c)
            · exact ih ((env.getD st).update none none (some true)) k c h2
        | null =>
          have heq : HttpClientConnection.mainLoop st (⟨env, Except.ok J.null⟩ :: rest)
              = (env.getD st, [HAct.sleep, HAct.fetchReq (env.getD st).session_key 10],
                 HttpClientConnection.MOut.raised ApiErr.pyErr) := by
            unfold HttpClientConnection.mainLoop
            rw [if_pos hc]
          rw [heq] at h
          simp at h
          exact h.2
        | str s2 =>
          have heq : HttpClientConnection.mainLoop st (⟨env, Except.ok (J.str s2)⟩ :: rest)
              = (env.getD st, [HAct.sleep, HAct.fetchReq (env.getD st).session_key 10],
                 HttpClientConnection.MOut.raised ApiErr.pyErr) := by
            unfold HttpClientConnection.mainLoop
            rw [if_pos hc]
          rw [heq] at h
          simp at h
          exact h.2
        | num n =>
          have heq : HttpClientConnection.mainLoop st (⟨env, Except.ok (J.num n)⟩ :: rest)
              = (env.getD st, [HAct.sleep, HAct.fetchReq (env.getD st).session_key 10],
                 HttpClientConnection.MOut.raised ApiErr.pyErr) := by
            unfold HttpClientConnection.mainLoop
            rw [if_pos hc]
          rw [heq] at h
          simp at h
          exact h.2
        | obj fs =>
          have heq : HttpClientConnection.mainLoop st (⟨env, Except.ok (J.obj fs)⟩ :: rest)
              = (env.getD st, [HAct.sleep, HAct.fetchReq (env.getD st).session_key 10],
                 HttpClientConnection.MOut.raised ApiErr.pyErr) := by
            unfold HttpClientConnection.mainLoop
            rw [if_pos hc]
          rw [heq] at h
          simp at h
          exact h.2
    · rw [mainLoop_exit st (⟨env, fr⟩ :: rest) (by simpa using hc)] at h
      simp at h

/-- A failed handshake makes `mainline` clear the session key, log the
exception and stop: no loop iteration ever runs. -/
theorem mainline_auth_fail (st : ConnectionStatus) (vr br : Except ApiErr J)
    (steps : List HttpClientConnection.MStep) (e : ApiErr)
    (h : (HttpClientConnection.http_auth st vr br).2.2 = some e) :
    HttpClientConnection.mainline st vr br steps
      = ((HttpClientConnection.http_auth st vr br).1.update (some none) none none,
         (HttpClientConnection.http_auth st vr br).2.1 ++ [HAct.logException],
         HttpClientConnection.MOut.authFailed) := by
  unfold HttpClientConnection.mainline
  rcases ha : HttpClientConnection.http_auth st vr br with ⟨st1, acts, oe⟩
  rw [ha] at h
  cases oe with
  | none => exact absurd h (by simp)
  | some e2 => rfl

/-- Claim C9: (1) a handshake failure clears the session key, is reported,
terminates the run without any fetch (no retry); (2) a loop that finishes
normally ends with `alive = false`; (3) every fetch is bounded (batch size
10); (4) the loop exits exactly when `connected` is false, clearing `alive`;
(5) each successful iteration is sleep, bounded fetch, `alive=True`, fan-out
of every decoded event to the callbacks, then the rest of the loop. -/
theorem claim_C9 :
    (∀ (st : ConnectionStatus) (vr br : Except ApiErr J)
        (steps : List HttpClientConnection.MStep) (e : ApiErr),
      (HttpClientConnection.http_auth st vr br).2.2 = some e →
      (HttpClientConnection.mainline st vr br steps).1.session_key = none
        ∧ (HttpClientConnection.mainline st vr br steps).2.2
            = HttpClientConnection.MOut.authFailed
        ∧ HAct.logException ∈ (HttpClientConnection.mainline st vr br steps).2.1
        ∧ ∀ (k : Option J) (c : Int),
            HAct.fetchReq k c ∉ (HttpClientConnection.mainline st vr br steps).2.1)
    ∧ (∀ (steps : List HttpClientConnection.MStep) (st : ConnectionStatus),
        (HttpClientConnection.mainLoop st steps).2.2
            = HttpClientConnection.MOut.finished →
        (HttpClientConnection.mainLoop st steps).1.alive = false)
    ∧ (∀ (steps : List HttpClientConnection.MStep) (st : ConnectionStatus)
        (k : Option J) (c : Int),
        HAct.fetchReq k c ∈ (HttpClientConnection.mainLoop st steps).2.1 → c = 10)
    ∧ (∀ (st : ConnectionStatus) (steps : List HttpClientConnection.MStep),
        st.connected = false →
        HttpClientConnection.mainLoop st steps
          = (st.update none none (some false), [HAct.updAlive false],
             HttpClientConnection.MOut.finished))
    ∧ (∀ (st : ConnectionStatus) (env : Option ConnectionStatus) (evs : JList)
        (rest : List HttpClientConnection.MStep),
        st.connected = true →
        HttpClientConnection.mainLoop st (⟨env, Except.ok (J.arr evs)⟩ :: rest)
          = ((HttpClientConnection.mainLoop
                ((env.getD st).update none none (some true)) rest).1,
             [HAct.sleep, HAct.fetchReq (env.getD st).session_key 10,
               HAct.updAlive true]
               ++ evs.mapToList HAct.dispatch
               ++ (HttpClientConnection.mainLoop
                    ((env.getD st).update none none (some true)) rest).2.1,
             (HttpClientConnection.mainLoop
                ((env.getD st).update none none (some true)) rest).2.2)) := by
  refine ⟨?_, mainLoop_finished_alive, mainLoop_fetch_ten,
    fun st steps h => mainLoop_exit st steps h,
    fun st env evs rest hc => mainLoop_iter st env evs rest hc⟩
  intro st vr br steps e h
  rw [mainline_auth_fail st vr br steps e h]
  refine ⟨rfl, rfl, by simp, ?_⟩
  intro k c hmem
  rcases List.mem_append.mp hmem with h1 | h1
  · rcases http_auth_acts st vr br (HAct.fetchReq k c) h1 with h2 | ⟨v, h2⟩
    · cases h2
    · cases h2
  · rcases List.mem_cons.mp h1 with h2 | h2
    · cases h2
    · exact absurd h2 (List.not_mem_nil _)

/-- Witness for C9: a failed `verify` request on a fresh status leaves the
session key `None` with outcome `authFailed`, and the loop on a
disconnected status ends with `alive = false`. -/
theorem claim_C9_witness :
    (HttpClientConnection.mainline ConnectionStatus.init (Except.error ApiErr.pyErr)
        (Except.ok J.null) []).1.session_key = none
    ∧ (HttpClientConnection.mainline ConnectionStatus.init (Except.error ApiErr.pyErr)
        (Except.ok J.null) []).2.2 = HttpClientConnection.MOut.authFailed
    ∧ (HttpClientConnection.mainLoop ConnectionStatus.init []).1.alive = false := by
  have h1 := claim_C9.1 ConnectionStatus.init (Except.error ApiErr.pyErr)
    (Except.ok J.null) [] ApiErr.pyErr rfl
  have h2 := claim_C9.2.2.2.1 ConnectionStatus.init [] rfl
  refine ⟨h1.1, h1.2.1, ?_⟩
  rw [h2]
  rfl
